import Mathlib

/-! The bitbox VGA driver (`src/lib/new_vga.c`): line/frame state machine.

A shallow embedding of the software state machine of the 640x480 video
driver: `vga640_setup`, `prepare_pixel_DMA` and the horizontal interrupt
handler `HSYNCHandler`.

Machine integers are natural numbers with an explicit `% 4294967296`
(`uint32_t`, 2^32) where the C code can wrap.  Pointers to `pixel_t` are
byte addresses; pixel `p[i]` lives at address `p + i * sizeof(pixel_t)`.
The external callbacks (`game_line`, `gamepad_readstep`, `game_sample`) are
recorded as events; `game_line`, the only one that writes the line buffers,
is a parameter that maps the state it is called in to the new pixel memory.
The `PROFILE` build (cycle-counter bookkeeping) is not modelled.
-/

namespace Bitbox

/-- Build parameters that `new_vga.c` takes from headers and compiler
flags that are not part of the file: `LINE_LENGTH` and `sizeof(pixel_t)`
come from `kernel.h`, `GAMEPAD` and `AUDIO` are `#ifdef` switches. -/
structure Config where
  LINE_LENGTH : Nat
  PIXEL_SIZE : Nat
  GAMEPAD : Bool
  AUDIO : Bool

/-- The state read and written by the driver: the public counters, the two
buffer pointers, pixel memory, the output data registers of GPIOA / GPIOC,
the DMA2 stream 5 registers the claims observe, and the two NVIC priority
numbers programmed by `vga640_setup`. -/
structure Vga where
  line : Nat
  frame : Nat
  display_buffer : Nat
  draw_buffer : Nat
  mem : Nat → Nat
  gpioa_odr : Nat
  gpioc_odr : Nat
  dma_ndtr : Nat
  dma_m0ar : Nat
  dma_en : Bool
  prio_tim5 : Nat
  prio_dma2_stream5 : Nat

/-- Calls and hardware actions of one handler invocation, in program order. -/
inductive Event where
  | swap : Event
  | arm (m0ar ndtr : Nat) : Event
  | game_line : Event
  | gamepad_readstep : Event
  | game_sample : Event
  deriving DecidableEq, Repr

/-- `static pixel_t *LineBuffer1=(pixel_t *)0x20000000;` -/
def LineBuffer1 : Nat := 0x20000000

/-- `static pixel_t *LineBuffer2=(pixel_t *)0x20000000+1024;` : the cast binds
first, so the offset is 1024 pixels. -/
def LineBuffer2 (cfg : Config) : Nat := 0x20000000 + 1024 * cfg.PIXEL_SIZE

/-- Writing `mask` to `GPIOx->BSRRL` sets the masked bits of the output
data register. -/
def gpio_set (odr mask : Nat) : Nat := odr ||| mask

/-- Writing `mask` to `GPIOx->BSRRH` clears the masked bits of the 16-bit
output data register. -/
def gpio_reset (odr mask : Nat) : Nat := odr &&& (0xFFFF ^^^ mask)

/-- `vga640_setup` applied to the machine state `pre` it is entered in.
`line=0; frame=0; display_buffer=LineBuffer1; draw_buffer=LineBuffer2;`,
`GPIOA->BSRRL=0b11`, `DMA2_Stream5->CR&=~DMA_SxCR_EN`,
`NVIC_SetPriority(TIM5_IRQn,0)` and `NVIC_SetPriority(DMA2_Stream5_IRQn,0)`.
The pin-mode helpers (`SetGPIOOutputMode` and friends) and the timer
programming write configuration registers that are not part of `Vga`;
nothing in the function writes the GPIOC output data register. -/
def vga640_setup (cfg : Config) (pre : Vga) : Vga :=
  { pre with
    line := 0
    frame := 0
    display_buffer := LineBuffer1
    draw_buffer := LineBuffer2 cfg
    gpioa_odr := gpio_set pre.gpioa_odr 0b11
    prio_tim5 := 0
    dma_en := false
    prio_dma2_stream5 := 0 }

/-- `prepare_pixel_DMA`: `NDTR=LINE_LENGTH+1`, `M0AR=(uint32_t)display_buffer`,
then the stream is enabled. -/
def prepare_pixel_DMA (cfg : Config) (s : Vga) : Vga :=
  { s with
    dma_ndtr := (cfg.LINE_LENGTH + 1) % 4294967296
    dma_m0ar := s.display_buffer % 4294967296
    dma_en := true }

/-- `line++;` on a `uint32_t`. -/
def line_incr (s : Vga) : Vga :=
  { s with line := (s.line + 1) % 4294967296 }

/-- `t=display_buffer; display_buffer = draw_buffer; draw_buffer = t;` -/
def swap_buffers (s : Vga) : Vga :=
  { s with display_buffer := s.draw_buffer, draw_buffer := s.display_buffer }

/-- The state of a visible-line invocation at the moment the pixel DMA has
just been armed, i.e. after `line++`, the swap and `prepare_pixel_DMA()`,
and before `game_line()` is called. -/
def HSYNC_armed (cfg : Config) (s : Vga) : Vga :=
  prepare_pixel_DMA cfg (swap_buffers (line_incr s))

/-- The blanking branch of `HSYNCHandler` (the `else` of `if(line<480)`),
applied to the state after `line++`. -/
def HSYNC_blank (cfg : Config) (s : Vga) : Vga × List Event :=
  let ev := if s.line ≤ 480 + 33 then
      (if cfg.GAMEPAD then [Event.gamepad_readstep] else [])
    else []
  if s.line = 480 then
    ({ s with frame := (s.frame + 1) % 4294967296 }, ev)
  else if s.line = 490 then
    ({ s with gpioc_odr := gpio_reset s.gpioc_odr (1 <<< 11) }, ev)
  else if s.line = 492 then
    ({ s with gpioc_odr := gpio_set s.gpioc_odr (1 <<< 11) }, ev)
  else if s.line = 524 then
    ({ s with line := 4294967295 }, ev)
  else
    (s, ev)

/-- `HSYNCHandler`: one horizontal interrupt.  Returns the new state and the
calls made, in order. -/
def HSYNCHandler (cfg : Config) (game_line : Vga → Nat → Nat) (s : Vga) :
    Vga × List Event :=
  let r : Vga × List Event :=
    if (line_incr s).line < 480 then
      let a := HSYNC_armed cfg s
      ({ a with mem := game_line a },
        [Event.swap, Event.arm a.dma_m0ar a.dma_ndtr, Event.game_line])
    else
      HSYNC_blank cfg (line_incr s)
  (r.1, r.2 ++ (if cfg.AUDIO then [Event.game_sample] else []))

/-- The state after `n` invocations of `HSYNCHandler` from `s`. -/
def run (cfg : Config) (game_line : Vga → Nat → Nat) : Nat → Vga → Vga
  | 0, s => s
  | n + 1, s => (HSYNCHandler cfg game_line (run cfg game_line n s)).1

/-- The calls made by the first `n` invocations of `HSYNCHandler` from `s`. -/
def events (cfg : Config) (game_line : Vga → Nat → Nat) : Nat → Vga → List Event
  | 0, _ => []
  | n + 1, s => events cfg game_line n s ++
      (HSYNCHandler cfg game_line (run cfg game_line n s)).2

/-- The line index the next invocation advances to. -/
def next_line (s : Vga) : Nat := (s.line + 1) % 4294967296

/-- The vertical-sync pin toggled by the handler is PC11; it is asserted when
driven low, i.e. when bit 11 of the GPIOC output data register is clear. -/
def vsync_asserted (s : Vga) : Bool := !(s.gpioc_odr.testBit 11)

/-- A line producer that writes `c` into pixels `0 .. n-1` of the buffer at
`base` (pixel `i` is at `base + i * psz`). -/
def fill (mem : Nat → Nat) (base psz c : Nat) : Nat → Nat → Nat
  | 0 => mem
  | k + 1 => fun a => if a = base + k * psz then c else fill mem base psz c k a

/-- The `game_line` of the solid-colour scenario: every call writes `c` into
all `LINE_LENGTH` pixels of `draw_buffer`. -/
def solid_line (cfg : Config) (c : Nat) (s : Vga) : Nat → Nat :=
  fill s.mem s.draw_buffer cfg.PIXEL_SIZE c cfg.LINE_LENGTH

/-- A line producer that writes `c` into `LINE_LENGTH + 1` pixels of
`draw_buffer`, the trailing slot included. -/
def overrun_line (cfg : Config) (c : Nat) (s : Vga) : Nat → Nat :=
  fill s.mem s.draw_buffer cfg.PIXEL_SIZE c (cfg.LINE_LENGTH + 1)

/-- A machine state before `vga640_setup`: every modelled register is 0 (the
reset value of the GPIO output data registers) and every pixel cell of RAM
holds `v`. -/
def reset_state (v : Nat) : Vga :=
  { line := 0, frame := 0, display_buffer := 0, draw_buffer := 0,
    mem := fun _ => v, gpioa_odr := 0, gpioc_odr := 0,
    dma_ndtr := 0, dma_m0ar := 0, dma_en := false,
    prio_tim5 := 0, prio_dma2_stream5 := 0 }

/-- The 640-pixel, 16-bit build. -/
def cfg640 : Config :=
  { LINE_LENGTH := 640, PIXEL_SIZE := 2, GAMEPAD := true, AUDIO := true }

/-- Number of visible-line invocations among the first `n` from setup. -/
def visCount (n : Nat) : Nat := 480 * (n / 525) + min (n % 525) 479

/-- A state whose line counter is 489, the last front-porch line. -/
def state_line_489 : Vga := { reset_state 0 with line := 489 }

/-- Every pixel of the first `LINE_LENGTH` of `draw_buffer` holds `c`. -/
def draw_filled (cfg : Config) (c : Nat) (s : Vga) : Prop :=
  ∀ i : Nat, i < cfg.LINE_LENGTH → s.mem (s.draw_buffer + i * cfg.PIXEL_SIZE) = c

/-! ## One invocation: effect on each component of the state -/

theorem HSYNCHandler_line (cfg : Config) (gl : Vga → Nat → Nat) (s : Vga) :
    (HSYNCHandler cfg gl s).1.line =
      if next_line s = 524 then 4294967295 else next_line s := by
  unfold HSYNCHandler HSYNC_blank HSYNC_armed prepare_pixel_DMA swap_buffers line_incr next_line
  simp only []
  split_ifs <;> simp_all

theorem HSYNCHandler_frame (cfg : Config) (gl : Vga → Nat → Nat) (s : Vga) :
    (HSYNCHandler cfg gl s).1.frame =
      if next_line s = 480 then (s.frame + 1) % 4294967296 else s.frame := by
  unfold HSYNCHandler HSYNC_blank HSYNC_armed prepare_pixel_DMA swap_buffers line_incr next_line
  simp only []
  split_ifs <;> simp_all

theorem HSYNCHandler_display (cfg : Config) (gl : Vga → Nat → Nat) (s : Vga) :
    (HSYNCHandler cfg gl s).1.display_buffer =
      if next_line s < 480 then s.draw_buffer else s.display_buffer := by
  unfold HSYNCHandler HSYNC_blank HSYNC_armed prepare_pixel_DMA swap_buffers line_incr next_line
  simp only []
  split_ifs <;> simp_all

theorem HSYNCHandler_draw (cfg : Config) (gl : Vga → Nat → Nat) (s : Vga) :
    (HSYNCHandler cfg gl s).1.draw_buffer =
      if next_line s < 480 then s.display_buffer else s.draw_buffer := by
  unfold HSYNCHandler HSYNC_blank HSYNC_armed prepare_pixel_DMA swap_buffers line_incr next_line
  simp only []
  split_ifs <;> simp_all

theorem HSYNCHandler_mem (cfg : Config) (gl : Vga → Nat → Nat) (s : Vga) :
    (HSYNCHandler cfg gl s).1.mem =
      if next_line s < 480 then gl (HSYNC_armed cfg s) else s.mem := by
  unfold HSYNCHandler HSYNC_blank line_incr next_line
  simp only []
  split_ifs <;> simp_all

theorem HSYNCHandler_gpioc (cfg : Config) (gl : Vga → Nat → Nat) (s : Vga) :
    (HSYNCHandler cfg gl s).1.gpioc_odr =
      if next_line s = 490 then gpio_reset s.gpioc_odr (1 <<< 11)
      else if next_line s = 492 then gpio_set s.gpioc_odr (1 <<< 11)
      else s.gpioc_odr := by
  unfold HSYNCHandler HSYNC_blank HSYNC_armed prepare_pixel_DMA swap_buffers line_incr next_line
  simp only []
  split_ifs <;> simp_all

/-! ## Runs: composition and closed forms from `vga640_setup` -/

theorem run_add (cfg : Config) (gl : Vga → Nat → Nat) (n m : Nat) (s : Vga) :
    run cfg gl m (run cfg gl n s) = run cfg gl (n + m) s := by
  induction m with
  | zero => rfl
  | succ m ih =>
    show (HSYNCHandler cfg gl (run cfg gl m (run cfg gl n s))).1 =
      (HSYNCHandler cfg gl (run cfg gl (n + m) s)).1
    rw [ih]

theorem events_add (cfg : Config) (gl : Vga → Nat → Nat) (n m : Nat) (s : Vga) :
    events cfg gl (n + m) s = events cfg gl n s ++ events cfg gl m (run cfg gl n s) := by
  induction m with
  | zero => simp [events]
  | succ m ih =>
    show events cfg gl (n + m) s ++ (HSYNCHandler cfg gl (run cfg gl (n + m) s)).2 =
      events cfg gl n s ++ (events cfg gl m (run cfg gl n s) ++
        (HSYNCHandler cfg gl (run cfg gl m (run cfg gl n s))).2)
    rw [ih, run_add, List.append_assoc]

theorem run_line (cfg : Config) (gl : Vga → Nat → Nat) (pre : Vga) (n : Nat) :
    (run cfg gl n (vga640_setup cfg pre)).line =
      if n % 525 = 524 then 4294967295 else n % 525 := by
  induction n with
  | zero => simp [run, vga640_setup]
  | succ n ih =>
    simp only [run, HSYNCHandler_line, next_line, ih]
    by_cases h : n % 525 = 524
    · rw [if_pos h]
      split_ifs <;> first | contradiction | omega
    · rw [if_neg h]
      split_ifs <;> first | contradiction | omega

theorem run_next_line (cfg : Config) (gl : Vga → Nat → Nat) (pre : Vga) (n : Nat) :
    next_line (run cfg gl n (vga640_setup cfg pre)) = (n + 1) % 525 := by
  simp only [next_line, run_line]
  split_ifs <;> omega

theorem run_frame (cfg : Config) (gl : Vga → Nat → Nat) (pre : Vga) (n : Nat) :
    (run cfg gl n (vga640_setup cfg pre)).frame = ((n + 45) / 525) % 4294967296 := by
  induction n with
  | zero => simp [run, vga640_setup]
  | succ n ih =>
    simp only [run, HSYNCHandler_frame, run_next_line, ih]
    split_ifs <;> omega

theorem visCount_succ (n : Nat) :
    visCount (n + 1) = if (n + 1) % 525 < 480 then visCount n + 1 else visCount n := by
  unfold visCount
  split_ifs <;> omega

theorem run_buffers (cfg : Config) (gl : Vga → Nat → Nat) (pre : Vga) (n : Nat) :
    (run cfg gl n (vga640_setup cfg pre)).display_buffer =
        (if visCount n % 2 = 0 then LineBuffer1 else LineBuffer2 cfg) ∧
    (run cfg gl n (vga640_setup cfg pre)).draw_buffer =
        (if visCount n % 2 = 0 then LineBuffer2 cfg else LineBuffer1) := by
  induction n with
  | zero => simp [run, vga640_setup, visCount]
  | succ n ih =>
    simp only [run, HSYNCHandler_display, HSYNCHandler_draw, run_next_line, ih, visCount_succ]
    split_ifs <;> first | exact ⟨rfl, rfl⟩ | omega

/-! ## Calls made by one invocation and by a run -/

theorem HSYNCHandler_count_game_line (cfg : Config) (gl : Vga → Nat → Nat) (s : Vga) :
    (HSYNCHandler cfg gl s).2.count Event.game_line =
      if next_line s < 480 then 1 else 0 := by
  unfold HSYNCHandler HSYNC_blank line_incr next_line
  simp only []
  split_ifs <;> simp_all [List.count_cons, List.count_nil]

theorem HSYNCHandler_count_swap (cfg : Config) (gl : Vga → Nat → Nat) (s : Vga) :
    (HSYNCHandler cfg gl s).2.count Event.swap =
      if next_line s < 480 then 1 else 0 := by
  unfold HSYNCHandler HSYNC_blank line_incr next_line
  simp only []
  split_ifs <;> simp_all [List.count_cons, List.count_nil]

theorem HSYNCHandler_count_gamepad (cfg : Config) (gl : Vga → Nat → Nat) (s : Vga) :
    (HSYNCHandler cfg gl s).2.count Event.gamepad_readstep =
      if cfg.GAMEPAD = true ∧ 480 ≤ next_line s ∧ next_line s ≤ 513 then 1 else 0 := by
  unfold HSYNCHandler HSYNC_blank line_incr next_line
  simp only []
  split_ifs <;> simp_all [List.count_cons, List.count_nil] <;> omega

theorem events_count_game_line (cfg : Config) (gl : Vga → Nat → Nat) (pre : Vga) (n : Nat) :
    (events cfg gl n (vga640_setup cfg pre)).count Event.game_line = visCount n := by
  induction n with
  | zero => simp [events, visCount]
  | succ n ih =>
    simp only [events, List.count_append, ih, HSYNCHandler_count_game_line, run_next_line,
      visCount_succ]
    split_ifs <;> rfl

theorem events_count_swap (cfg : Config) (gl : Vga → Nat → Nat) (pre : Vga) (n : Nat) :
    (events cfg gl n (vga640_setup cfg pre)).count Event.swap = visCount n := by
  induction n with
  | zero => simp [events, visCount]
  | succ n ih =>
    simp only [events, List.count_append, ih, HSYNCHandler_count_swap, run_next_line,
      visCount_succ]
    split_ifs <;> rfl

/-! ## The line counter (C1, C10) -/

/-- C1, as stated, fails: after exactly 524 invocations from the state left
by `vga640_setup` the counter `line` holds 4294967295 (the stored `-1`), not
`524 mod 524 = 0`. -/
theorem C1_line_after_524 :
    (run cfg640 (solid_line cfg640 0) 524 (vga640_setup cfg640 (reset_state 0))).line
        = 4294967295 ∧
    (run cfg640 (solid_line cfg640 0) 524 (vga640_setup cfg640 (reset_state 0))).line
        ≠ 524 % 524 := by
  rw [run_line]
  decide

/-- C1, amended: after `N` invocations of `HSYNCHandler` from the state left
by `vga640_setup`, `line` equals `N mod 525`, except that it holds 2^32 - 1
when `N mod 525 = 524`; in particular `line` is 0 again after exactly 525
invocations. -/
theorem C1_line_period_525 (cfg : Config) (gl : Vga → Nat → Nat) (pre : Vga) :
    (∀ N : Nat, (run cfg gl N (vga640_setup cfg pre)).line =
      if N % 525 = 524 then 4294967295 else N % 525) ∧
    (run cfg gl 525 (vga640_setup cfg pre)).line = 0 := by
  refine ⟨fun N => run_line cfg gl pre N, ?_⟩
  rw [run_line]
  decide

/-! ## The frame counter (C2) -/

/-- C2: one invocation of `HSYNCHandler` increases `frame` by exactly 1
modulo 2^32 when the line it advances to is 480 and leaves `frame` unchanged
otherwise, from every state; hence in a run from `vga640_setup` the value of
`frame` is (modulo 2^32, the width of the counter) the number of invocations
so far that advanced the line to 480. -/
theorem C2_frame_counts_line_480 (cfg : Config) (gl : Vga → Nat → Nat) :
    (∀ s : Vga, (HSYNCHandler cfg gl s).1.frame =
      if next_line s = 480 then (s.frame + 1) % 4294967296 else s.frame) ∧
    (∀ (pre : Vga) (N : Nat), (run cfg gl N (vga640_setup cfg pre)).frame =
      ((List.range N).countP
        (fun k => decide (next_line (run cfg gl k (vga640_setup cfg pre)) = 480)))
        % 4294967296) := by
  refine ⟨fun s => HSYNCHandler_frame cfg gl s, fun pre N => ?_⟩
  induction N with
  | zero => simp [run, vga640_setup]
  | succ N ih =>
    simp only [run, HSYNCHandler_frame, ih, List.range_succ, List.countP_append,
      List.countP_cons, List.countP_nil]
    by_cases h : next_line (run cfg gl N (vga640_setup cfg pre)) = 480
    · simp [h]
    · simp [h]

/-! ## Callbacks (C5, C6) -/

/-- C5: an invocation of `HSYNCHandler` calls `game_line` exactly once when
the line it advances to is visible (`line < 480`) and not at all when it is a
blanking line (`line >= 480`). -/
theorem C5_game_line_once_per_visible_line (cfg : Config) (gl : Vga → Nat → Nat)
    (s : Vga) :
    (HSYNCHandler cfg gl s).2.count Event.game_line =
      if next_line s < 480 then 1 else 0 :=
  HSYNCHandler_count_game_line cfg gl s

/-- C6, as stated, fails: with GAMEPAD enabled the invocation that advances
the line to 490 (the first sync line, outside `480 <= line < 490`) calls
`gamepad_readstep`. -/
theorem C6_gamepad_called_on_sync_line :
    cfg640.GAMEPAD = true ∧ next_line state_line_489 = 490 ∧
    ¬ (480 ≤ next_line state_line_489 ∧ next_line state_line_489 < 490) ∧
    (HSYNCHandler cfg640 (solid_line cfg640 0) state_line_489).2.count
      Event.gamepad_readstep = 1 := by
  rw [HSYNCHandler_count_gamepad]
  decide

/-- C6, amended: with GAMEPAD enabled, an invocation of `HSYNCHandler` calls
`gamepad_readstep` exactly once when the line it advances to satisfies
`480 <= line <= 513` (front porch, sync and the first back-porch lines) and
not at all otherwise; in particular never on a visible line. -/
theorem C6_gamepad_window_480_513 (cfg : Config) (gl : Vga → Nat → Nat) (s : Vga)
    (hpad : cfg.GAMEPAD = true) :
    (HSYNCHandler cfg gl s).2.count Event.gamepad_readstep =
      if 480 ≤ next_line s ∧ next_line s ≤ 513 then 1 else 0 := by
  rw [HSYNCHandler_count_gamepad]
  simp [hpad]

/-- Witness for C6 amended: the 640-pixel build at line 489. -/
theorem C6_gamepad_window_480_513_witness :
    cfg640.GAMEPAD = true ∧
    (HSYNCHandler cfg640 (solid_line cfg640 0) state_line_489).2.count
      Event.gamepad_readstep =
      if 480 ≤ next_line state_line_489 ∧ next_line state_line_489 ≤ 513 then 1 else 0 :=
  ⟨rfl, C6_gamepad_window_480_513 cfg640 (solid_line cfg640 0) state_line_489 rfl⟩

/-! ## Interrupt priorities (C9) -/

/-- C9, as stated, fails: after `vga640_setup` the priority number of
DMA2_Stream5_IRQn is not strictly smaller than that of TIM5_IRQn. -/
theorem C9_dma_priority_not_higher :
    ¬ ((vga640_setup cfg640 (reset_state 0)).prio_dma2_stream5 <
        (vga640_setup cfg640 (reset_state 0)).prio_tim5) := by
  decide

/-- C9, amended: after `vga640_setup`, whatever the state before, both
DMA2_Stream5_IRQn and TIM5_IRQn have NVIC priority number 0: the two
interrupts are configured with the same (highest) priority. -/
theorem C9_equal_priorities (cfg : Config) (pre : Vga) :
    (vga640_setup cfg pre).prio_dma2_stream5 = 0 ∧
    (vga640_setup cfg pre).prio_tim5 = 0 ∧
    (vga640_setup cfg pre).prio_dma2_stream5 = (vga640_setup cfg pre).prio_tim5 :=
  ⟨rfl, rfl, rfl⟩

/-! ## Periodicity (C10) -/

/-- C10: from every state `s` reachable from `vga640_setup` by `HSYNCHandler`
invocations, 525 further invocations return `line`, `display_buffer` and
`draw_buffer` to their values and increase `frame` by exactly 1 modulo 2^32;
exactly 480 of them swap the buffers and call `game_line`; no smaller positive
number of invocations returns `line` to its value; and `line` only ever holds
a value in 0..523 or 2^32 - 1 (and each of these values does occur). -/
theorem C10_period_525 (cfg : Config) (gl : Vga → Nat → Nat) (pre : Vga) (n : Nat) :
    (run cfg gl 525 (run cfg gl n (vga640_setup cfg pre))).line =
      (run cfg gl n (vga640_setup cfg pre)).line ∧
    (run cfg gl 525 (run cfg gl n (vga640_setup cfg pre))).display_buffer =
      (run cfg gl n (vga640_setup cfg pre)).display_buffer ∧
    (run cfg gl 525 (run cfg gl n (vga640_setup cfg pre))).draw_buffer =
      (run cfg gl n (vga640_setup cfg pre)).draw_buffer ∧
    (run cfg gl 525 (run cfg gl n (vga640_setup cfg pre))).frame =
      ((run cfg gl n (vga640_setup cfg pre)).frame + 1) % 4294967296 ∧
    (events cfg gl 525 (run cfg gl n (vga640_setup cfg pre))).count Event.swap = 480 ∧
    (events cfg gl 525 (run cfg gl n (vga640_setup cfg pre))).count Event.game_line = 480 ∧
    (∀ k : Nat, 0 < k → k < 525 →
      (run cfg gl k (run cfg gl n (vga640_setup cfg pre))).line ≠
        (run cfg gl n (vga640_setup cfg pre)).line) ∧
    ((run cfg gl n (vga640_setup cfg pre)).line ≤ 523 ∨
      (run cfg gl n (vga640_setup cfg pre)).line = 4294967295) ∧
    (∀ v : Nat, v ≤ 523 ∨ v = 4294967295 →
      ∃ m : Nat, (run cfg gl m (vga640_setup cfg pre)).line = v) := by
  have hv : visCount (n + 525) = visCount n + 480 := by unfold visCount; omega
  have hsw := events_count_swap cfg gl pre (n + 525)
  have hgl := events_count_game_line cfg gl pre (n + 525)
  rw [events_add, List.count_append, events_count_swap, hv] at hsw
  rw [events_add, List.count_append, events_count_game_line, hv] at hgl
  refine ⟨?_, ?_, ?_, ?_, by omega, by omega, ?_, ?_, ?_⟩
  · rw [run_add, run_line, run_line]
    split_ifs <;> omega
  · rw [run_add, (run_buffers cfg gl pre (n + 525)).1, (run_buffers cfg gl pre n).1, hv]
    split_ifs <;> first | rfl | omega
  · rw [run_add, (run_buffers cfg gl pre (n + 525)).2, (run_buffers cfg gl pre n).2, hv]
    split_ifs <;> first | rfl | omega
  · rw [run_add, run_frame, run_frame]
    omega
  · intro k hk0 hk
    rw [run_add, run_line, run_line]
    split_ifs <;> omega
  · rw [run_line]
    split_ifs <;> omega
  · rintro v (hv | hv)
    · refine ⟨v, ?_⟩
      rw [run_line]
      split_ifs <;> omega
    · refine ⟨524, ?_⟩
      rw [run_line, hv]
      decide

/-! ## Double buffering (C4, C7, C8) -/

theorem HSYNC_armed_fields (cfg : Config) (s : Vga) :
    (HSYNC_armed cfg s).display_buffer = s.draw_buffer ∧
    (HSYNC_armed cfg s).draw_buffer = s.display_buffer ∧
    (HSYNC_armed cfg s).mem = s.mem ∧
    (HSYNC_armed cfg s).dma_m0ar = s.draw_buffer % 4294967296 ∧
    (HSYNC_armed cfg s).dma_ndtr = (cfg.LINE_LENGTH + 1) % 4294967296 ∧
    (HSYNC_armed cfg s).line = next_line s :=
  ⟨rfl, rfl, rfl, rfl, rfl, rfl⟩

theorem fill_at (mem : Nat → Nat) (base psz c : Nat) (k i : Nat) (h : i < k) :
    fill mem base psz c k (base + i * psz) = c := by
  induction k with
  | zero => omega
  | succ k ih =>
    simp only [fill]
    split_ifs with hk
    · rfl
    · have hne : i ≠ k := fun e => hk (by rw [e])
      exact ih (by omega)

theorem HSYNCHandler_draw_filled (cfg : Config) (c : Nat) (s : Vga)
    (h : next_line s < 480 ∨ draw_filled cfg c s) :
    draw_filled cfg c (HSYNCHandler cfg (solid_line cfg c) s).1 := by
  intro i hi
  rw [HSYNCHandler_mem, HSYNCHandler_draw]
  by_cases hv : next_line s < 480
  · rw [if_pos hv, if_pos hv]
    exact fill_at _ _ _ _ _ _ hi
  · rw [if_neg hv, if_neg hv]
    rcases h with h | h
    · exact absurd h hv
    · exact h i hi

theorem run_draw_filled (cfg : Config) (c : Nat) (pre : Vga) (n : Nat) :
    draw_filled cfg c (run cfg (solid_line cfg c) (n + 1) (vga640_setup cfg pre)) := by
  induction n with
  | zero =>
    refine HSYNCHandler_draw_filled cfg c _ (Or.inl ?_)
    show next_line (run cfg (solid_line cfg c) 0 (vga640_setup cfg pre)) < 480
    rw [run_next_line]
    decide
  | succ n ih => exact HSYNCHandler_draw_filled cfg c _ (Or.inr ih)

theorem armed_m0ar_eq_display (cfg : Config) (gl : Vga → Nat → Nat) (pre : Vga) (n : Nat)
    (hfit : LineBuffer2 cfg < 4294967296) :
    (HSYNC_armed cfg (run cfg gl n (vga640_setup cfg pre))).dma_m0ar =
      (HSYNC_armed cfg (run cfg gl n (vga640_setup cfg pre))).display_buffer := by
  obtain ⟨_, hw⟩ := run_buffers cfg gl pre n
  have h1 : LineBuffer1 < 4294967296 := by unfold LineBuffer1; omega
  have hlt : (run cfg gl n (vga640_setup cfg pre)).draw_buffer < 4294967296 := by
    rw [hw]
    split_ifs <;> assumption
  obtain ⟨a1, _, _, a4, _, _⟩ := HSYNC_armed_fields cfg (run cfg gl n (vga640_setup cfg pre))
  rw [a4, a1, Nat.mod_eq_of_lt hlt]

/-- C4: in every state `s` reachable from `vga640_setup` (pixels have
positive size and the buffers lie in the 32-bit address space)
`display_buffer != draw_buffer`; and when the next invocation is a visible
line, `game_line` is called on the armed state, in which the DMA source
address `M0AR` is `display_buffer` after the swap, `draw_buffer` differs from
that address, and `draw_buffer` is the buffer that was `display_buffer`
before the invocation. -/
theorem C4_draw_buffer_not_streamed (cfg : Config) (gl : Vga → Nat → Nat) (pre : Vga)
    (n : Nat) (hsz : 0 < cfg.PIXEL_SIZE) (hfit : LineBuffer2 cfg < 4294967296) :
    (run cfg gl n (vga640_setup cfg pre)).display_buffer ≠
      (run cfg gl n (vga640_setup cfg pre)).draw_buffer ∧
    (next_line (run cfg gl n (vga640_setup cfg pre)) < 480 →
      (HSYNCHandler cfg gl (run cfg gl n (vga640_setup cfg pre))).1.mem =
        gl (HSYNC_armed cfg (run cfg gl n (vga640_setup cfg pre))) ∧
      (HSYNC_armed cfg (run cfg gl n (vga640_setup cfg pre))).dma_m0ar =
        (HSYNC_armed cfg (run cfg gl n (vga640_setup cfg pre))).display_buffer ∧
      (HSYNC_armed cfg (run cfg gl n (vga640_setup cfg pre))).draw_buffer ≠
        (HSYNC_armed cfg (run cfg gl n (vga640_setup cfg pre))).dma_m0ar ∧
      (HSYNC_armed cfg (run cfg gl n (vga640_setup cfg pre))).draw_buffer =
        (run cfg gl n (vga640_setup cfg pre)).display_buffer) := by
  obtain ⟨hd, hw⟩ := run_buffers cfg gl pre n
  have hne : LineBuffer1 ≠ LineBuffer2 cfg := by
    unfold LineBuffer1 LineBuffer2; omega
  have h1 : LineBuffer1 < 4294967296 := by unfold LineBuffer1; omega
  have hdw : (run cfg gl n (vga640_setup cfg pre)).display_buffer ≠
      (run cfg gl n (vga640_setup cfg pre)).draw_buffer := by
    rw [hd, hw]
    split_ifs
    · exact hne
    · exact fun e => hne e.symm
  have hlt : (run cfg gl n (vga640_setup cfg pre)).draw_buffer < 4294967296 := by
    rw [hw]
    split_ifs <;> assumption
  obtain ⟨a1, a2, _, a4, _, _⟩ := HSYNC_armed_fields cfg (run cfg gl n (vga640_setup cfg pre))
  refine ⟨hdw, fun hv => ⟨?_, ?_, ?_, a2⟩⟩
  · rw [HSYNCHandler_mem, if_pos hv]
  · rw [a4, a1, Nat.mod_eq_of_lt hlt]
  · rw [a4, a2, Nat.mod_eq_of_lt hlt]
    exact hdw

/-- Witness for C4: the 640-pixel, 16-bit build, at the first invocation
after `vga640_setup`, which advances to the visible line 1. -/
theorem C4_draw_buffer_not_streamed_witness :
    0 < cfg640.PIXEL_SIZE ∧ LineBuffer2 cfg640 < 4294967296 ∧
    next_line (run cfg640 (solid_line cfg640 7) 0 (vga640_setup cfg640 (reset_state 0))) < 480 ∧
    (run cfg640 (solid_line cfg640 7) 0 (vga640_setup cfg640 (reset_state 0))).display_buffer ≠
      (run cfg640 (solid_line cfg640 7) 0 (vga640_setup cfg640 (reset_state 0))).draw_buffer ∧
    (HSYNC_armed cfg640
        (run cfg640 (solid_line cfg640 7) 0 (vga640_setup cfg640 (reset_state 0)))).draw_buffer ≠
      (HSYNC_armed cfg640
        (run cfg640 (solid_line cfg640 7) 0 (vga640_setup cfg640 (reset_state 0)))).dma_m0ar :=
  ⟨by decide, by decide, by decide,
    (C4_draw_buffer_not_streamed cfg640 (solid_line cfg640 7) (reset_state 0) 0
      (by decide) (by decide)).1,
    ((C4_draw_buffer_not_streamed cfg640 (solid_line cfg640 7) (reset_state 0) 0
      (by decide) (by decide)).2 (by decide)).2.2.1⟩

theorem HSYNCHandler_events_visible (cfg : Config) (gl : Vga → Nat → Nat) (s : Vga)
    (hv : next_line s < 480) :
    (HSYNCHandler cfg gl s).2 =
      [Event.swap, Event.arm (HSYNC_armed cfg s).dma_m0ar (HSYNC_armed cfg s).dma_ndtr,
        Event.game_line] ++ (if cfg.AUDIO then [Event.game_sample] else []) := by
  have hv2 : (line_incr s).line < 480 := hv
  unfold HSYNCHandler
  simp only [if_pos hv2]

/-- What the pixel DMA is armed with in the solid-colour scenario, for the
producer's own pixels: whenever an invocation other than the very first one
advances to a visible line, the handler arms the stream (`EN` set) with
`NDTR = LINE_LENGTH + 1` and `M0AR = display_buffer`, reports exactly that arming
between the swap and the `game_line` call, and the first `LINE_LENGTH` items at
`M0AR` all hold `c`. -/
theorem solid_line_armed_pixels (cfg : Config) (c : Nat) (pre : Vga) (n : Nat)
    (hfit : LineBuffer2 cfg < 4294967296) (hn : 1 ≤ n)
    (hvis : next_line (run cfg (solid_line cfg c) n (vga640_setup cfg pre)) < 480) :
    (HSYNC_armed cfg (run cfg (solid_line cfg c) n (vga640_setup cfg pre))).dma_en = true ∧
    (HSYNC_armed cfg (run cfg (solid_line cfg c) n (vga640_setup cfg pre))).dma_ndtr =
      (cfg.LINE_LENGTH + 1) % 4294967296 ∧
    (HSYNC_armed cfg (run cfg (solid_line cfg c) n (vga640_setup cfg pre))).dma_m0ar =
      (HSYNC_armed cfg (run cfg (solid_line cfg c) n
        (vga640_setup cfg pre))).display_buffer ∧
    (HSYNCHandler cfg (solid_line cfg c)
        (run cfg (solid_line cfg c) n (vga640_setup cfg pre))).2.take 3 =
      [Event.swap,
        Event.arm
          (HSYNC_armed cfg (run cfg (solid_line cfg c) n (vga640_setup cfg pre))).dma_m0ar
          (HSYNC_armed cfg (run cfg (solid_line cfg c) n (vga640_setup cfg pre))).dma_ndtr,
        Event.game_line] ∧
    ∀ i : Nat, i < cfg.LINE_LENGTH →
      (HSYNC_armed cfg (run cfg (solid_line cfg c) n (vga640_setup cfg pre))).mem
        ((HSYNC_armed cfg (run cfg (solid_line cfg c) n (vga640_setup cfg pre))).dma_m0ar
          + i * cfg.PIXEL_SIZE) = c := by
  have hm0 := armed_m0ar_eq_display cfg (solid_line cfg c) pre n hfit
  refine ⟨rfl, rfl, hm0, ?_, ?_⟩
  · rw [HSYNCHandler_events_visible cfg _ _ hvis]
    rfl
  · obtain ⟨m, rfl⟩ : ∃ m, n = m + 1 := ⟨n - 1, by omega⟩
    intro i hi
    rw [hm0]
    exact run_draw_filled cfg c pre m i hi

set_option maxRecDepth 1000000 in
/-- C7 at a failing input: 640-pixel build, pixel RAM holding 0x0FFF before
the driver starts, `game_line` writing `c = 7` into all `LINE_LENGTH` pixels of
`draw_buffer` on every call.  The second invocation after `vga640_setup` is the
second visible-line interrupt (it advances to line 2).  It arms the pixel DMA
(`EN` set) with `M0AR = display_buffer = LineBuffer1` and `NDTR = 641` and
reports that arming between the swap and the `game_line` call; the first 640
streamed items hold 7, written on the immediately preceding visible line, but
the 641st streamed item `display_buffer[640]` holds 0x0FFF, content from before
the driver started. -/
theorem C7_streamed_trailing_item_stale :
    next_line (run cfg640 (solid_line cfg640 7) 1
      (vga640_setup cfg640 (reset_state 4095))) = 2 ∧
    (HSYNC_armed cfg640 (run cfg640 (solid_line cfg640 7) 1
      (vga640_setup cfg640 (reset_state 4095)))).dma_en = true ∧
    (HSYNC_armed cfg640 (run cfg640 (solid_line cfg640 7) 1
      (vga640_setup cfg640 (reset_state 4095)))).dma_ndtr = 641 ∧
    (HSYNC_armed cfg640 (run cfg640 (solid_line cfg640 7) 1
      (vga640_setup cfg640 (reset_state 4095)))).dma_m0ar = LineBuffer1 ∧
    (HSYNC_armed cfg640 (run cfg640 (solid_line cfg640 7) 1
      (vga640_setup cfg640 (reset_state 4095)))).display_buffer = LineBuffer1 ∧
    (HSYNCHandler cfg640 (solid_line cfg640 7) (run cfg640 (solid_line cfg640 7) 1
      (vga640_setup cfg640 (reset_state 4095)))).2 =
      [Event.swap, Event.arm LineBuffer1 641, Event.game_line, Event.game_sample] ∧
    (∀ i : Nat, i < 640 →
      (HSYNC_armed cfg640 (run cfg640 (solid_line cfg640 7) 1
        (vga640_setup cfg640 (reset_state 4095)))).mem
        ((HSYNC_armed cfg640 (run cfg640 (solid_line cfg640 7) 1
          (vga640_setup cfg640 (reset_state 4095)))).dma_m0ar + i * 2) = 7) ∧
    (HSYNC_armed cfg640 (run cfg640 (solid_line cfg640 7) 1
      (vga640_setup cfg640 (reset_state 4095)))).mem
      ((HSYNC_armed cfg640 (run cfg640 (solid_line cfg640 7) 1
        (vga640_setup cfg640 (reset_state 4095)))).dma_m0ar + 640 * 2) = 4095 ∧
    (4095 : Nat) ≠ 7 := by
  refine ⟨by decide, by decide, by decide, by decide, by decide, by decide, ?_, by decide,
    by decide⟩
  intro i hi
  have hm : (HSYNC_armed cfg640 (run cfg640 (solid_line cfg640 7) 1
      (vga640_setup cfg640 (reset_state 4095)))).dma_m0ar =
      (HSYNC_armed cfg640 (run cfg640 (solid_line cfg640 7) 1
        (vga640_setup cfg640 (reset_state 4095)))).display_buffer := by decide
  rw [hm]
  exact run_draw_filled cfg640 7 (reset_state 4095) 0 i hi

set_option maxRecDepth 1000000 in
/-- C8 at two failing inputs, 640-pixel build.  (a) Pixel RAM holds 0x0FFF
before the driver starts and the line producer writes black into all
`LINE_LENGTH` pixels of `draw_buffer`: at the third arming (both buffers have
been drawn once) the transfer length is `LINE_LENGTH + 1 = 641` from
`display_buffer`, and the trailing pixel `display_buffer[LINE_LENGTH]` is
0x0FFF, not black.  (b) Pixel RAM is all zero and the producer writes 0x0FFF
into `LINE_LENGTH + 1` pixels: at the second arming the trailing pixel is
0x0FFF. -/
theorem C8_trailing_pixel_not_forced_black :
    ((HSYNC_armed cfg640 (run cfg640 (solid_line cfg640 0) 2
        (vga640_setup cfg640 (reset_state 4095)))).dma_ndtr = cfg640.LINE_LENGTH + 1 ∧
    (HSYNC_armed cfg640 (run cfg640 (solid_line cfg640 0) 2
        (vga640_setup cfg640 (reset_state 4095)))).dma_m0ar =
      (HSYNC_armed cfg640 (run cfg640 (solid_line cfg640 0) 2
        (vga640_setup cfg640 (reset_state 4095)))).display_buffer ∧
    (HSYNC_armed cfg640 (run cfg640 (solid_line cfg640 0) 2
        (vga640_setup cfg640 (reset_state 4095)))).mem
      ((HSYNC_armed cfg640 (run cfg640 (solid_line cfg640 0) 2
        (vga640_setup cfg640 (reset_state 4095)))).display_buffer
        + cfg640.LINE_LENGTH * cfg640.PIXEL_SIZE) = 4095) ∧
    ((HSYNC_armed cfg640 (run cfg640 (overrun_line cfg640 4095) 1
        (vga640_setup cfg640 (reset_state 0)))).dma_ndtr = cfg640.LINE_LENGTH + 1 ∧
    (HSYNC_armed cfg640 (run cfg640 (overrun_line cfg640 4095) 1
        (vga640_setup cfg640 (reset_state 0)))).mem
      ((HSYNC_armed cfg640 (run cfg640 (overrun_line cfg640 4095) 1
        (vga640_setup cfg640 (reset_state 0)))).display_buffer
        + cfg640.LINE_LENGTH * cfg640.PIXEL_SIZE) = 4095) := by
  decide

/-! ## Vertical sync (C3) -/

theorem vsync_after_reset (odr : Nat) :
    (gpio_reset odr (1 <<< 11)).testBit 11 = false := by
  unfold gpio_reset
  rw [Nat.testBit_land]
  have : (0xFFFF ^^^ (1 <<< 11)).testBit 11 = false := by decide
  rw [this, Bool.and_false]

theorem vsync_after_set (odr : Nat) :
    (gpio_set odr (1 <<< 11)).testBit 11 = true := by
  unfold gpio_set
  rw [Nat.testBit_lor]
  have : (1 <<< 11).testBit 11 = true := by decide
  rw [this, Bool.or_true]

/-- The level of the vsync pin along a run: until the first invocation that
reaches line 490 it is whatever GPIOC held before `vga640_setup`; from then on
it is low exactly on lines 490 and 491. -/
theorem run_vsync (cfg : Config) (gl : Vga → Nat → Nat) (pre : Vga) (n : Nat) :
    vsync_asserted (run cfg gl n (vga640_setup cfg pre)) =
      if n < 490 then !(pre.gpioc_odr.testBit 11)
      else decide (n % 525 = 490 ∨ n % 525 = 491) := by
  induction n with
  | zero => simp [run, vga640_setup, vsync_asserted]
  | succ n ih =>
    unfold vsync_asserted at ih ⊢
    simp only [run, HSYNCHandler_gpioc, run_next_line]
    by_cases h0 : (n + 1) % 525 = 490
    · rw [if_pos h0, vsync_after_reset]
      have : ¬ (n + 1 < 490) := by omega
      simp [this, h0]
    · rw [if_neg h0]
      by_cases h2 : (n + 1) % 525 = 492
      · rw [if_pos h2, vsync_after_set]
        have : ¬ (n + 1 < 490) := by omega
        simp [this, h2]
      · rw [if_neg h2, ih]
        by_cases hn : n + 1 < 490
        · have hn2 : n < 490 := by omega
          rw [if_pos hn, if_pos hn2]
        · have hn2 : ¬ n < 490 := by omega
          rw [if_neg hn, if_neg hn2]
          congr 1
          apply propext
          constructor <;> intro h <;> omega

/-- From the first invocation that reaches line 490 on, the vsync pin is
asserted exactly when the line counter is in the sync region. -/
theorem vsync_iff_sync_region_from_490 (cfg : Config) (gl : Vga → Nat → Nat) (pre : Vga)
    (n : Nat) (hn : 490 ≤ n) :
    vsync_asserted (run cfg gl n (vga640_setup cfg pre)) = true ↔
      (490 ≤ (run cfg gl n (vga640_setup cfg pre)).line ∧
        (run cfg gl n (vga640_setup cfg pre)).line < 492) := by
  rw [run_vsync, run_line, if_neg (by omega)]
  simp only [decide_eq_true_eq]
  split_ifs <;> omega

/-- C3 at a failing input: with the GPIOC output data register at its reset
value 0 when `vga640_setup` is entered, the vsync pin PC11 is low (asserted)
in the initial state and after the first invocation, while `line` is 0 and 1,
outside the sync region `490 <= line < 492`. -/
theorem C3_vsync_asserted_at_line_0 :
    (vga640_setup cfg640 (reset_state 0)).line = 0 ∧
    vsync_asserted (vga640_setup cfg640 (reset_state 0)) = true ∧
    (run cfg640 (solid_line cfg640 0) 1 (vga640_setup cfg640 (reset_state 0))).line = 1 ∧
    vsync_asserted (run cfg640 (solid_line cfg640 0) 1
      (vga640_setup cfg640 (reset_state 0))) = true := by
  decide

end Bitbox
